import Mathlib

/-!
Verification of the RistorazioneVittoria migration scripts
(`migrate_to_saas.py`, `migrate_to_saas_phase2.py`, `wire_org_context.py`)
against their natural-language specification.

File texts are modelled as `List Char` (Python 3 `str` is a sequence of
Unicode code points; `read_text`/`write_text` with `encoding='utf-8'`
round-trip code points losslessly, so character lists are the faithful
abstraction).  The file system is modelled as an association list from
path (`List Char`) to content; directories are not modelled (the scripts
only `mkdir -p` before writing, which cannot fail in the model).

Python regular expressions used by the scripts are compiled by hand into
deterministic scanners.  Each scanner is justified next to its
definition: every quantifier in the source patterns is followed by a
character class disjoint from the quantified one, so Python's
backtracking engine has exactly one possible span at each starting
position, and `re.search` takes the leftmost starting position.
`\s` and `\w` are modelled by their ASCII parts (the Dart sources the
scripts target are ASCII-identifier files; non-ASCII characters can of
course still occur in the texts and are carried through unchanged).
-/

/-! ## Basic string helpers (Python `in`, `str.find`, `str.rfind`) -/

/-- Python's substring test `sub in s` (`List Char` version):
true iff `sub` occurs contiguously in `s`. -/
def subOccurs (sub s : List Char) : Bool :=
  (List.range (s.length + 1)).any (fun i => sub.isPrefixOf (s.drop i))

/-- Python `s.find(sub)` restricted to the found case: index of the first
occurrence of `sub` in `s`, `none` when absent (Python returns `-1`). -/
def firstIndexOfSub (s sub : List Char) : Option Nat :=
  (List.range (s.length + 1)).find? (fun i => sub.isPrefixOf (s.drop i))

/-- Python `s.rfind(sub)`: index of the last occurrence of `sub` in `s`,
`none` when absent. -/
def lastIndexOfSub (s sub : List Char) : Option Nat :=
  ((List.range (s.length + 1)).filter (fun i => sub.isPrefixOf (s.drop i))).getLast?

/-- Python `s.find(ch, start)`: first index `j ≥ start` with `s[j] = ch`. -/
def findCharFrom (s : List Char) (ch : Char) (start : Nat) : Option Nat :=
  (List.range s.length).find? (fun j => decide (start ≤ j) && decide (s.get? j = some ch))

/-- First index `i` that begins a line (`i = 0` or the previous character is
a newline) such that `lit` is a prefix of `s` from `i` on.  This is Python's
`re.search(r'^lit', s, re.MULTILINE)` for a literal pattern `lit`. -/
def findLineAnchor (lit : List Char) (s : List Char) : Option Nat :=
  (List.range (s.length + 1)).find? (fun i =>
    (decide (i = 0) || decide (s.get? (i - 1) = some '\n')) && lit.isPrefixOf (s.drop i))

/-- Last path component (`pathlib.Path.name`): the part after the last `/`. -/
def lastComponent (p : List Char) : List Char :=
  (p.reverse.takeWhile (fun c => c ≠ '/')).reverse

/-! ## Character classes of the scripts' regexes (ASCII parts of `\s`, `\w`) -/

/-- ASCII part of Python's `\s`. -/
def isPySpace (c : Char) : Bool :=
  c = ' ' || c = '\t' || c = '\n' || c = '\r' || c = '\x0b' || c = '\x0c'

/-- ASCII part of Python's `\w`. -/
def isPyWord (c : Char) : Bool :=
  c.isAlpha || c.isDigit || c = '_'

/-! ## The factory-constructor patch rule

Both `migrate_to_saas.py::add_organization_id_to_model` (lines 152-187) and
`migrate_to_saas_phase2.py::update_settings_models` (lines 313-341) apply
the same transformation to a file text:

* precondition (idempotence guard): `'organizationId' in content or
  'organization_id' in content` means skip;
* matcher: `re.search(r'(factory\s+\w+\s*\(\s*\{)([^}]*?)(\}\s*\)\s*=\s*_\w+;)',
  content, re.DOTALL)`;
* insertion: the new field text is spliced between group 1 and group 2,
  i.e. at offset `match.start() + len(group 1)`:
  `new_content = content[:m.start()] + g1 + new_field + g2 + g3 + content[m.end():]`.
-/

/-- Group 1 of the factory pattern: `factory\s+\w+\s*\(\s*\{`.
Returns the number of characters matched from the front of `cs`.
Deterministic because each greedy `\s+`/`\w+`/`\s*` is followed by a
character outside its class, so backtracking can never produce a second
span. -/
def parseG1 (cs : List Char) : Option Nat :=
  if "factory".data.isPrefixOf cs then
    let cs0 := cs.drop 7
    let w1 := (cs0.takeWhile isPySpace).length
    if w1 = 0 then none else
    let cs1 := cs0.drop w1
    let w2 := (cs1.takeWhile isPyWord).length
    if w2 = 0 then none else
    let cs2 := cs1.drop w2
    let w3 := (cs2.takeWhile isPySpace).length
    match cs2.drop w3 with
    | '(' :: cs3 =>
      let w4 := (cs3.takeWhile isPySpace).length
      match cs3.drop w4 with
      | '{' :: _ => some (7 + w1 + w2 + w3 + 1 + w4 + 1)
      | _ => none
    | _ => none
  else none

/-- Group 3 of the factory pattern: `\}\s*\)\s*=\s*_\w+;`.
Returns the number of characters matched from the front of `cs`. -/
def parseG3 (cs : List Char) : Option Nat :=
  match cs with
  | '}' :: cs0 =>
    let w1 := (cs0.takeWhile isPySpace).length
    match cs0.drop w1 with
    | ')' :: cs1 =>
      let w2 := (cs1.takeWhile isPySpace).length
      match cs1.drop w2 with
      | '=' :: cs2 =>
        let w3 := (cs2.takeWhile isPySpace).length
        match cs2.drop w3 with
        | '_' :: cs3 =>
          let w4 := (cs3.takeWhile isPyWord).length
          if w4 = 0 then none else
          match cs3.drop w4 with
          | ';' :: _ => some (1 + w1 + 1 + w2 + 1 + w3 + 1 + w4 + 1)
          | _ => none
        | _ => none
      | _ => none
    | _ => none
  | _ => none

/-- One attempt of the whole factory pattern at the front of `cs`.
Group 2 is the lazy `[^}]*?`: it cannot consume a `}`, and group 3 must
start with `}`, so the only candidate span for group 2 is the run of
non-`}` characters up to the first `}` after group 1 — lazy expansion
stops exactly there, and no longer span is possible.  Returns
`(length of group 1, total match length)`. -/
def matchAt (cs : List Char) : Option (Nat × Nat) :=
  match parseG1 cs with
  | none => none
  | some g1 =>
    let rest := cs.drop g1
    let g2 := (rest.takeWhile (fun c => c ≠ '}')).length
    match parseG3 (rest.drop g2) with
    | none => none
    | some g3 => some (g1, g1 + g2 + g3)

/-- Leftmost-match search (`re.search`): try `matchAt` at every position,
first success wins.  Returns `(absolute start, length of group 1, total)`. -/
def findFactoryMatchAux (i : Nat) : List Char → Option (Nat × Nat × Nat)
  | [] => none
  | c :: cs =>
    match matchAt (c :: cs) with
    | some (g1, total) => some (i, g1, total)
    | none => findFactoryMatchAux (i + 1) cs

/-- `re.search` of the factory pattern over the whole text. -/
def findFactoryMatch (cs : List Char) : Option (Nat × Nat × Nat) :=
  findFactoryMatchAux 0 cs

/-- The inserted field text (`new_field` in both scripts). -/
def orgInsertion : List Char :=
  "\n    @JsonKey(name: 'organization_id') String? organizationId,".data

/-- The idempotence guard of the rule:
`'organizationId' in content or 'organization_id' in content`. -/
def hasOrgPrecondition (content : List Char) : Bool :=
  subOccurs "organizationId".data content || subOccurs "organization_id".data content

/-- Outcome of applying one patch rule to one file text (spec §3
`PatchResult`; `skippedNotFound` is produced by the file-level wrappers,
never by the pure rule). -/
inductive PatchResult where
  | applied (newText : List Char)
  | skippedAlreadyPresent
  | skippedNoMatch
  | skippedNotFound
deriving DecidableEq

/-- The pure factory-insertion rule shared by
`migrate_to_saas.py::add_organization_id_to_model` and
`migrate_to_saas_phase2.py::update_settings_models` (their guard, matcher
and splice are textually identical): precondition check first, then the
structural matcher, then a single splice of `orgInsertion` at
`match.start() + len(group 1)`. -/
def applyFactoryRule (content : List Char) : PatchResult :=
  if hasOrgPrecondition content then
    .skippedAlreadyPresent
  else
    match findFactoryMatch content with
    | none => .skippedNoMatch
    | some (start, g1, _) =>
      .applied (content.take (start + g1) ++ orgInsertion ++ content.drop (start + g1))

/-! ## File-system model

An association list from path to content.  `fsWrite` is Python's
`Path.write_text`: replace the (first) binding when the path exists,
append a new binding otherwise.  `shutil.copy2 src dst` is
`fsWrite · dst (content of src)`. -/

/-- The file system: a list of `(path, content)` bindings. -/
abbrev FS := List (List Char × List Char)

/-- `Path.read_text` (as an `Option`; `none` means `FileNotFoundError`). -/
def fsRead : FS → List Char → Option (List Char)
  | [], _ => none
  | e :: rest, p => if e.1 = p then some e.2 else fsRead rest p

/-- `Path.write_text`: overwrite when the path exists, create otherwise. -/
def fsWrite : FS → List Char → List Char → FS
  | [], p, c => [(p, c)]
  | e :: rest, p, c => if e.1 = p then (p, c) :: rest else e :: fsWrite rest p c

/-- `LIB_DIR.exists()`: in the model a directory exists when some file
lives under it. -/
def libExists (fs : FS) : Bool :=
  fs.any (fun e => "lib/".data.isPrefixOf e.1)

/-! ## migrate_to_saas.py -/

/-- `MigrationReport` (lines 72-89): four append-only lists. -/
structure Report where
  modelUpdates : List (List Char)
  serviceUpdates : List (List Char)
  errors : List (List Char)
  warnings : List (List Char)
deriving DecidableEq

def emptyReport : Report := ⟨[], [], [], []⟩

def addModelUpdate (r : Report) (m : List Char) : Report :=
  { r with modelUpdates := r.modelUpdates ++ [m] }

def addServiceUpdate (r : Report) (m : List Char) : Report :=
  { r with serviceUpdates := r.serviceUpdates ++ [m] }

def addError (r : Report) (m : List Char) : Report :=
  { r with errors := r.errors ++ [m] }

def addWarning (r : Report) (m : List Char) : Report :=
  { r with warnings := r.warnings ++ [m] }

/-- `DATABASE_SERVICE = LIB_DIR / "core" / "services" / "database_service.dart"`. -/
def dbServicePath : List Char := "lib/core/services/database_service.dart".data

/-- `LIB_DIR / "providers" / "organization_provider.dart"`. -/
def orgProviderPath : List Char := "lib/providers/organization_provider.dart".data

/-- `MODEL_FILES_TO_UPDATE` (lines 48-62), resolved against `MODELS_DIR`. -/
def modelTargets1 : List (List Char) :=
  [ "lib/core/models/menu_item_model.dart".data,
    "lib/core/models/category_model.dart".data,
    "lib/core/models/ingredient_model.dart".data,
    "lib/core/models/order_model.dart".data,
    "lib/core/models/order_item_model.dart".data,
    "lib/core/models/promotional_banner_model.dart".data,
    "lib/core/models/delivery_zone_model.dart".data,
    "lib/core/models/allowed_city_model.dart".data,
    "lib/core/models/cashier_customer_model.dart".data,
    "lib/core/models/ingredient_size_price_model.dart".data,
    "lib/core/models/menu_item_size_assignment_model.dart".data,
    "lib/core/models/menu_item_extra_ingredient_model.dart".data,
    "lib/core/models/menu_item_included_ingredient_model.dart".data ]

/-- `ORG_TABLES` of migrate_to_saas.py (lines 35-45). -/
def orgTables1 : List (List Char) :=
  [ "organizations".data, "organization_members".data, "profiles".data,
    "categorie_menu".data, "sizes_master".data, "ingredients".data,
    "ingredient_size_prices".data, "menu_items".data, "menu_item_sizes".data,
    "menu_item_included_ingredients".data, "menu_item_extra_ingredients".data,
    "allowed_cities".data, "delivery_zones".data, "cashier_customers".data,
    "daily_order_counters".data, "ordini".data, "ordini_items".data,
    "order_reminders".data, "notifiche".data, "business_rules".data,
    "delivery_configuration".data, "order_management".data,
    "kitchen_management".data, "display_branding".data,
    "dashboard_security".data, "promotional_banners".data,
    "ingredient_consumption_rules".data, "inventory_logs".data,
    "payment_transactions".data, "statistiche_giornaliere".data ]

def todoHeader1 : List Char :=
  "\n// =\x3d=\x3d=\x3d=\x3d=\x3d=\x3d=\x3d=\x3d=\x3d=\x3d=\x3d=\x3d=\x3d=\x3d=\x3d=\x3d=\x3d=\x3d=\x3d=\x3d=\x3d=\x3d=\x3d=\x3d=\x3d=\x3d=\x3d=\x3d=\x3d=\x3d=\x3d=\x3d=\x3d=\x3d=\x3d=\x3d=\x3d=\x3d=\n// TODO: SAAS MIGRATION - Organization Filtering Required\n// =\x3d=\x3d=\x3d=\x3d=\x3d=\x3d=\x3d=\x3d=\x3d=\x3d=\x3d=\x3d=\x3d=\x3d=\x3d=\x3d=\x3d=\x3d=\x3d=\x3d=\x3d=\x3d=\x3d=\x3d=\x3d=\x3d=\x3d=\x3d=\x3d=\x3d=\x3d=\x3d=\x3d=\x3d=\x3d=\x3d=\x3d=\x3d=\n// The following tables need organization_id filtering:\n// - categorie_menu, menu_items, ingredients, sizes_master\n// - ordini, ordini_items, notifiche, cashier_customers\n// - delivery_zones, allowed_cities, promotional_banners\n// - business_rules, delivery_configuration, order_management\n// - kitchen_management, display_branding, dashboard_security\n// - ingredient_consumption_rules, inventory_logs, payment_transactions\n//\n// For each query:\n// 1. Add String? organizationId parameter to the method\n// 2. Add .eq('organization_id', organizationId) to SELECT queries\n// 3. Add 'organization_id': organizationId to INSERT payloads\n//\n// Example:\n//   Future<List<MenuItem>> getMenuItems(\x7bString? organizationId\x7d) async \x7b\n//     var query = _client.from('menu_items').select();\n//     if (organizationId != null) \x7b\n//       query = query.eq('organization_id', organizationId);\n//     \x7d\n//     return query...\n//   \x7d\n// =\x3d=\x3d=\x3d=\x3d=\x3d=\x3d=\x3d=\x3d=\x3d=\x3d=\x3d=\x3d=\x3d=\x3d=\x3d=\x3d=\x3d=\x3d=\x3d=\x3d=\x3d=\x3d=\x3d=\x3d=\x3d=\x3d=\x3d=\x3d=\x3d=\x3d=\x3d=\x3d=\x3d=\x3d=\x3d=\x3d=\x3d=\x3d=\n\n".data

def providerTemplate1 : List Char :=
  "import 'package:riverpod_annotation/riverpod_annotation.dart';\nimport 'package:supabase_flutter/supabase_flutter.dart';\n\npart 'organization_provider.g.dart';\n\n/// Current organization ID for multi-tenant queries\n/// \n/// TODO: Implement organization selection/switching logic\n/// For now, returns the first organization or null\n@riverpod\nclass CurrentOrganization extends _$CurrentOrganization \x7b\n  @override\n  Future<String?> build() async \x7b\n    final client = Supabase.instance.client;\n    \n    // Get user's current organization from profile\n    final userId = client.auth.currentUser?.id;\n    if (userId == null) return null;\n    \n    try \x7b\n      final response = await client\n          .from('profiles')\n          .select('current_organization_id')\n          .eq('id', userId)\n          .single();\n      \n      return response['current_organization_id'] as String?;\n    \x7d catch (e) \x7b\n      // If profile doesn't exist or no org set, try to get first org\n      try \x7b\n        final orgs = await client\n            .from('organizations')\n            .select('id')\n            .eq('is_active', true)\n            .limit(1);\n        \n        if (orgs.isNotEmpty) \x7b\n          return orgs.first['id'] as String;\n        \x7d\n      \x7d catch (_) \x7b\x7d\n      return null;\n    \x7d\n  \x7d\n  \n  /// Switch to a different organization\n  Future<void> switchOrganization(String organizationId) async \x7b\n    final client = Supabase.instance.client;\n    final userId = client.auth.currentUser?.id;\n    if (userId == null) return;\n    \n    await client\n        .from('profiles')\n        .update(\x7b'current_organization_id': organizationId\x7d)\n        .eq('id', userId);\n    \n    ref.invalidateSelf();\n  \x7d\n\x7d\n\n/// List of organizations the current user belongs to\n@riverpod\nFuture<List<Map<String, dynamic>>> userOrganizations(UserOrganizationsRef ref) async \x7b\n  final client = Supabase.instance.client;\n  final userId = client.auth.currentUser?.id;\n  if (userId == null) return [];\n  \n  final response = await client\n      .from('organization_members')\n      .select('organization:organizations(*)')\n      .eq('user_id', userId)\n      .eq('is_active', true);\n  \n  return response\n      .map((e) => e['organization'] as Map<String, dynamic>)\n      .toList();\n\x7d\n".data
/-- `MODELS_DIR.glob("*.dart")` membership with the `.freezed.dart`/`.g.dart`
exclusion of `create_backup` (lines 131-133): a `.dart` file directly in
`lib/core/models/`. -/
def isModelGlob (p : List Char) : Bool :=
  "lib/core/models/".data.isPrefixOf p &&
  (p.drop 16).all (fun c => c ≠ '/') &&
  ".dart".data.isSuffixOf p &&
  !(".freezed.dart".data.isSuffixOf p) &&
  !(".g.dart".data.isSuffixOf p)

/-- One `shutil.copy2` step: copy `p` (when it exists) to `tgt p`. -/
def copyStep (tgt : List Char → List Char) (fs : FS) (p : List Char) : FS :=
  match fsRead fs p with
  | none => fs
  | some c => fsWrite fs (tgt p) c

/-- Snapshot directory of one migrate_to_saas.py run: `BACKUP_DIR / timestamp`. -/
def snapBase1 (ts : List Char) : List Char :=
  "migration_backup/".data ++ ts ++ "/".data

/-- `create_backup` (lines 121-142): copy every globbed model file into
`<snapshot>/models/<name>`, then `database_service.dart` (when present)
into `<snapshot>/services/`. -/
def create_backup (fs : FS) (ts : List Char) : FS :=
  let base := snapBase1 ts
  let modelFiles := (fs.filter (fun e => isModelGlob e.1)).map (fun e => e.1)
  let fs1 := modelFiles.foldl
    (copyStep (fun p => base ++ "models/".data ++ lastComponent p)) fs
  copyStep (fun _ => base ++ "services/database_service.dart".data) fs1 dbServicePath

/-- `add_organization_id_to_model` (lines 145-187): file-level wrapper of
`applyFactoryRule` with report entries; in dry-run mode nothing is written. -/
def add_organization_id_to_model (fs : FS) (path : List Char) (r : Report)
    (dryRun : Bool) : FS × Report × Bool :=
  let name := lastComponent path
  match fsRead fs path with
  | none => (fs, addWarning r ("File not found: ".data ++ name), false)
  | some content =>
    match applyFactoryRule content with
    | .skippedAlreadyPresent =>
        (fs, addWarning r (name ++ ": Already has organizationId, skipping".data), false)
    | .skippedNoMatch =>
        (fs, addWarning r (name ++ ": Could not find factory constructor".data), false)
    | .skippedNotFound => (fs, r, false)
    | .applied newContent =>
        if dryRun then
          (fs, addModelUpdate r (name ++ ": Would add organizationId field".data), true)
        else
          (fsWrite fs path newContent,
           addModelUpdate r (name ++ ": Added organizationId field".data), true)

/-- Phase 1 of `main` (lines 477-479): apply the model rule to each file of
`MODEL_FILES_TO_UPDATE` in order. -/
def processModels (dryRun : Bool) : List (List Char) → FS → Report → FS × Report
  | [], fs, r => (fs, r)
  | p :: rest, fs, r =>
    let (fs1, r1, _) := add_organization_id_to_model fs p r dryRun
    processModels dryRun rest fs1 r1

/-- One attempt, at the front of `cs`, of the table pattern of
`update_database_service` (lines 209-218):
`\.from\s*\(\s*['\"]table['\"]\s*\)\s*\.verb\s*\(`.
Deterministic: each `\s*` is followed by a non-space literal, and `['\"]`
is a single character from a two-element class checked directly. -/
def parseFromCallAt (table verb cs : List Char) : Bool :=
  match cs with
  | '.' :: cs0 =>
    if "from".data.isPrefixOf cs0 then
      let cs1 := cs0.drop 4
      let w1 := (cs1.takeWhile isPySpace).length
      match cs1.drop w1 with
      | '(' :: cs2 =>
        let w2 := (cs2.takeWhile isPySpace).length
        match cs2.drop w2 with
        | q1 :: cs3 =>
          (q1 = '\'' || q1 = '"') &&
          table.isPrefixOf cs3 &&
          (match cs3.drop table.length with
           | q2 :: cs4 =>
             (q2 = '\'' || q2 = '"') &&
             (let w3 := (cs4.takeWhile isPySpace).length
              match cs4.drop w3 with
              | ')' :: cs5 =>
                let w4 := (cs5.takeWhile isPySpace).length
                match cs5.drop w4 with
                | '.' :: cs6 =>
                  verb.isPrefixOf cs6 &&
                  (let cs7 := cs6.drop verb.length
                   let w5 := (cs7.takeWhile isPySpace).length
                   match cs7.drop w5 with
                   | '(' :: _ => true
                   | _ => false)
                | _ => false
              | _ => false)
           | _ => false)
        | _ => false
      | _ => false
    else false
  | _ => false

/-- `re.search` of the table pattern: does it match anywhere in `content`? -/
def hasFromCall (table verb content : List Char) : Bool :=
  (List.range (content.length + 1)).any (fun i => parseFromCallAt table verb (content.drop i))

/-- The three query verbs probed per table (lines 207-219). -/
def tableVerbs : List (List Char) := ["select".data, "insert".data, "update".data]

/-- `updates_count` of `update_database_service` (lines 199-224): one count
per `(table, pattern)` pair whose pattern occurs in the content.  Python
iterates `ORG_TABLES` (a set) in an unspecified order; the total is
order-independent. -/
def countTableMarks (content : List Char) : Nat :=
  orgTables1.foldl
    (fun acc t => acc + (tableVerbs.filter (fun v => hasFromCall t v content)).length) 0

/-- The corresponding report entries, in the (model) list order. -/
def tableMarkEntries (content : List Char) : List (List Char) :=
  (orgTables1.filter (fun t => tableVerbs.any (fun v => hasFromCall t v content))).foldl
    (fun acc t =>
      acc ++ (tableVerbs.filter (fun v => hasFromCall t v content)).map
        (fun _ => t ++ ": Marked for organization filtering".data)) []

/-- `update_database_service` of migrate_to_saas.py (lines 190-266): count
tables needing filtering; in apply mode, when anything was counted and the
`SAAS MIGRATION` header is not yet present, splice `todoHeader1` in front
of the first line matching `^class DatabaseService` and write the file. -/
def update_database_service1 (fs : FS) (r : Report) (dryRun : Bool) :
    FS × Report × Nat :=
  match fsRead fs dbServicePath with
  | none =>
    (fs, addError r "DatabaseService not found".data, 0)
  | some content =>
    let n := countTableMarks content
    let r1 := (tableMarkEntries content).foldl addServiceUpdate r
    if n > 0 && !dryRun then
      if !(subOccurs "SAAS MIGRATION".data content) then
        match findLineAnchor "class DatabaseService".data content with
        | some i =>
          (fsWrite fs dbServicePath (content.take i ++ todoHeader1 ++ content.drop i),
           addServiceUpdate r1 "DatabaseService: Added migration TODO header".data, n)
        | none => (fs, r1, n)
      else (fs, r1, n)
    else (fs, r1, n)

/-- `create_organization_provider` (lines 269-362): create a brand-new
provider file, never touching an existing one. -/
def create_organization_provider (fs : FS) (r : Report) (dryRun : Bool) :
    FS × Report × Bool :=
  if (fsRead fs orgProviderPath).isSome then
    (fs, addWarning r "organization_provider.dart already exists".data, false)
  else if dryRun then
    (fs, addModelUpdate r "organization_provider.dart: Would create new provider".data, true)
  else
    (fsWrite fs orgProviderPath providerTemplate1,
     addModelUpdate r "organization_provider.dart: Created new organization provider".data, true)

/-- Command-line flags of migrate_to_saas.py. -/
structure Flags1 where
  dryRun : Bool
  apply : Bool
  report : Bool
  skipBackup : Bool

/-- `main` of migrate_to_saas.py (lines 446-498): flag check (exit 1 when no
mode was chosen), `lib/` check (exit 1, before any backup or write), then
backup (apply mode only, unless `--skip-backup`), then the three phases.
Returns `(exit code, final file system)`. -/
def script1Main (f : Flags1) (ts : List Char) (fs : FS) : Nat × FS :=
  if !(f.dryRun || f.apply || f.report) then (1, fs)
  else if !(libExists fs) then (1, fs)
  else
    let dryRun := f.dryRun || f.report
    let fs1 := if f.apply && !f.skipBackup then create_backup fs ts else fs
    let out2 := processModels dryRun modelTargets1 fs1 emptyReport
    let out3 := update_database_service1 out2.1 out2.2 dryRun
    let out4 := create_organization_provider out3.1 out3.2.1 dryRun
    (0, out4.1)

/-! ## migrate_to_saas_phase2.py -/

def providerTemplate2 : List Char :=
  "import 'package:riverpod_annotation/riverpod_annotation.dart';\nimport 'package:supabase_flutter/supabase_flutter.dart';\n\npart 'organization_provider.g.dart';\n\n/// Current organization ID for multi-tenant queries\n/// \n/// This is THE source of truth for org context across the app.\n/// All data-fetching providers should watch this.\n@riverpod\nclass CurrentOrganization extends _$CurrentOrganization \x7b\n  @override\n  Future<String?> build() async \x7b\n    final client = Supabase.instance.client;\n    final userId = client.auth.currentUser?.id;\n    if (userId == null) return null;\n    \n    try \x7b\n      // Get user's current organization from profile\n      final response = await client\n          .from('profiles')\n          .select('current_organization_id')\n          .eq('id', userId)\n          .maybeSingle();\n      \n      final orgId = response?['current_organization_id'] as String?;\n      if (orgId != null) return orgId;\n      \n      // Fallback: get first organization user belongs to\n      final orgs = await client\n          .from('organization_members')\n          .select('organization_id')\n          .eq('user_id', userId)\n          .eq('is_active', true)\n          .limit(1);\n      \n      if (orgs.isNotEmpty) \x7b\n        final firstOrgId = orgs.first['organization_id'] as String;\n        // Set as current\n        await client\n            .from('profiles')\n            .update(\x7b'current_organization_id': firstOrgId\x7d)\n            .eq('id', userId);\n        return firstOrgId;\n      \x7d\n      \n      // Fallback: get any active organization (for single-tenant compatibility)\n      final anyOrg = await client\n          .from('organizations')\n          .select('id')\n          .eq('is_active', true)\n          .limit(1);\n      \n      if (anyOrg.isNotEmpty) \x7b\n        return anyOrg.first['id'] as String;\n      \x7d\n      \n      return null;\n    \x7d catch (e) \x7b\n      // Fallback for compatibility\n      try \x7b\n        final orgs = await client\n            .from('organizations')\n            .select('id')\n            .eq('is_active', true)\n            .limit(1);\n        if (orgs.isNotEmpty) \x7b\n          return orgs.first['id'] as String;\n        \x7d\n      \x7d catch (_) \x7b\x7d\n      return null;\n    \x7d\n  \x7d\n  \n  /// Switch to a different organization\n  Future<void> switchOrganization(String organizationId) async \x7b\n    final client = Supabase.instance.client;\n    final userId = client.auth.currentUser?.id;\n    if (userId == null) return;\n    \n    await client\n        .from('profiles')\n        .update(\x7b'current_organization_id': organizationId\x7d)\n        .eq('id', userId);\n    \n    ref.invalidateSelf();\n  \x7d\n  \n  /// Refresh organization context\n  Future<void> refresh() async \x7b\n    ref.invalidateSelf();\n  \x7d\n\x7d\n\n/// List of organizations the current user belongs to\n@riverpod\nFuture<List<Map<String, dynamic>>> userOrganizations(UserOrganizationsRef ref) async \x7b\n  final client = Supabase.instance.client;\n  final userId = client.auth.currentUser?.id;\n  if (userId == null) return [];\n  \n  final response = await client\n      .from('organization_members')\n      .select('organization:organizations(*)')\n      .eq('user_id', userId)\n      .eq('is_active', true);\n  \n  return response\n      .map((e) => e['organization'] as Map<String, dynamic>)\n      .toList();\n\x7d\n\n/// Check if user is member of specific organization\n@riverpod\nFuture<bool> isOrganizationMember(IsOrganizationMemberRef ref, String organizationId) async \x7b\n  final client = Supabase.instance.client;\n  final userId = client.auth.currentUser?.id;\n  if (userId == null) return false;\n  \n  final response = await client\n      .from('organization_members')\n      .select('id')\n      .eq('user_id', userId)\n      .eq('organization_id', organizationId)\n      .eq('is_active', true)\n      .maybeSingle();\n  \n  return response != null;\n\x7d\n\n/// Get user's role in current organization\n@riverpod\nFuture<String?> organizationRole(OrganizationRoleRef ref) async \x7b\n  final orgId = await ref.watch(currentOrganizationProvider.future);\n  if (orgId == null) return null;\n  \n  final client = Supabase.instance.client;\n  final userId = client.auth.currentUser?.id;\n  if (userId == null) return null;\n  \n  final response = await client\n      .from('organization_members')\n      .select('role')\n      .eq('user_id', userId)\n      .eq('organization_id', orgId)\n      .maybeSingle();\n  \n  return response?['role'] as String?;\n\x7d\n".data

def helperContent : List Char :=
  "/// Organization-aware database helpers\n/// \n/// Use these extensions to easily add organization filtering to queries.\n\nimport 'package:supabase_flutter/supabase_flutter.dart';\n\nextension OrganizationAwareQuery on PostgrestFilterBuilder \x7b\n  /// Add organization filter if orgId is provided\n  PostgrestFilterBuilder orgFilter(String? organizationId) \x7b\n    if (organizationId != null) \x7b\n      return eq('organization_id', organizationId);\n    \x7d\n    return this;\n  \x7d\n\x7d\n\nextension OrganizationAwareInsert on Map<String, dynamic> \x7b\n  /// Add organization_id to insert payload\n  Map<String, dynamic> withOrgId(String? organizationId) \x7b\n    if (organizationId != null) \x7b\n      this['organization_id'] = organizationId;\n    \x7d\n    return this;\n  \x7d\n\x7d\n".data
/-- Lexicographic order on character lists, for Python's `sorted` over
paths that share a directory. -/
def lexLe : List Char → List Char → Bool
  | [], _ => true
  | _ :: _, [] => false
  | a :: as_, b :: bs => if a = b then lexLe as_ bs else decide (a < b)

/-- Insert into a sorted list (stable: equal keys keep their order). -/
def insertSorted (x : List Char) : List (List Char) → List (List Char)
  | [] => [x]
  | y :: rest => if lexLe y x then y :: insertSorted x rest else x :: y :: rest

/-- `sorted` on paths (insertion sort). -/
def sortPaths (l : List (List Char)) : List (List Char) :=
  l.foldr insertSorted []

/-- `providers_dir.glob("*.dart")` membership with the `.g.dart` exclusion:
a `.dart` file directly in `lib/providers/`. -/
def isProviderGlob (p : List Char) : Bool :=
  "lib/providers/".data.isPrefixOf p &&
  (p.drop 14).all (fun c => c ≠ '/') &&
  ".dart".data.isSuffixOf p &&
  !(".g.dart".data.isSuffixOf p)

/-- Snapshot directory of one phase-2 run: `BACKUP_DIR / timestamp` with
`BACKUP_DIR = PROJECT_ROOT / "migration_backup_phase2"`. -/
def snapBase2 (ts : List Char) : List Char :=
  "migration_backup_phase2/".data ++ ts ++ "/".data

/-- `f.relative_to(LIB_DIR)`: strip the `lib/` prefix. -/
def relToLib (p : List Char) : List Char := p.drop 4

/-- `create_backup` of phase 2 (lines 42-69): copy `database_service.dart`,
`organization_provider.dart` and every globbed provider file (those that
exist) into `<snapshot>/<path relative to lib/>`.  The settings model files
of `update_settings_models` are NOT in this list. -/
def create_backup2 (fs : FS) (ts : List Char) : FS :=
  let base := snapBase2 ts
  let files := [dbServicePath, orgProviderPath] ++
    (fs.filter (fun e => isProviderGlob e.1)).map (fun e => e.1)
  files.foldl (copyStep (fun p => base ++ relToLib p)) fs

/-- `update_organization_provider` (lines 72-234): unconditionally overwrite
(or create) `organization_provider.dart` with the enhanced template; in
dry-run mode write nothing. -/
def update_organization_provider (fs : FS) (dryRun : Bool) : FS :=
  if dryRun then fs else fsWrite fs orgProviderPath providerTemplate2

/-- The five settings files of `update_settings_models` (lines 300-306). -/
def settingsTargets : List (List Char) :=
  [ "lib/core/models/settings/business_rules_settings.dart".data,
    "lib/core/models/settings/delivery_configuration_settings.dart".data,
    "lib/core/models/settings/display_branding_settings.dart".data,
    "lib/core/models/settings/kitchen_management_settings.dart".data,
    "lib/core/models/settings/order_management_settings.dart".data ]

/-- `update_settings_models` (lines 294-343): the same guard, matcher and
splice as `applyFactoryRule`, applied to each existing settings file;
missing files are skipped silently (`continue`, no warning), a failed
match prints a warning.  Returns the file system, the `updates` counter and
the list of printed warnings. -/
def update_settings_models_go (dryRun : Bool) :
    List (List Char) → FS → Nat → List (List Char) → FS × Nat × List (List Char)
  | [], fs, n, w => (fs, n, w)
  | p :: rest, fs, n, w =>
    match fsRead fs p with
    | none => update_settings_models_go dryRun rest fs n w
    | some content =>
      match applyFactoryRule content with
      | .skippedAlreadyPresent => update_settings_models_go dryRun rest fs n w
      | .skippedNoMatch =>
          update_settings_models_go dryRun rest fs n
            (w ++ [lastComponent p ++ ": Could not find factory constructor".data])
      | .skippedNotFound => update_settings_models_go dryRun rest fs n w
      | .applied newContent =>
          if dryRun then update_settings_models_go dryRun rest fs (n + 1) w
          else update_settings_models_go dryRun rest (fsWrite fs p newContent) (n + 1) w

def update_settings_models (fs : FS) (dryRun : Bool) : FS × Nat × List (List Char) :=
  update_settings_models_go dryRun settingsTargets fs 0 []

/-- `import 'organization_provider.dart';` (`org_import`, line 268). -/
def orgImportStmt : List Char := "import 'organization_provider.dart';".data

/-- `update_provider_file` (lines 252-291), pure part: given a provider
file's text, returns `(updated?, changes, text written)` where the third
component is `some` exactly when the apply path reaches `write_text`.
Note the source reports `updated = true` for ANY file that passes the two
guards, even when `changes = 0` and nothing was inserted. -/
def update_provider_file (content : List Char) (dryRun : Bool) :
    Bool × Nat × Option (List Char) :=
  if !(subOccurs "Supabase.instance.client".data content) then (false, 0, none)
  else if subOccurs "currentOrganizationProvider".data content then (false, 0, none)
  else
    let step :=
      if !(subOccurs orgImportStmt content) &&
         !(subOccurs "organization_provider.dart".data content) then
        match findLineAnchor "import ".data content with
        | some i => (content.take i ++ orgImportStmt ++ '\n' :: content.drop i, 1)
        | none => (content, 0)
      else (content, 0)
    if step.2 > 0 || subOccurs "Supabase.instance.client".data step.1 then
      if dryRun then (true, 1, none) else (true, step.2, some step.1)
    else (false, 0, none)

/-- `get_provider_files` (lines 237-249): globbed provider files minus
`organization_provider.dart`, sorted. -/
def get_provider_files (fs : FS) : List (List Char) :=
  sortPaths (((fs.filter (fun e => isProviderGlob e.1)).map (fun e => e.1)).filter
    (fun p => p ≠ orgProviderPath))

/-- One iteration of step 3 of phase-2 `main` (lines 415-418): read the
provider file and write back whatever `update_provider_file` produced. -/
def providerStep2 (dryRun : Bool) (fs : FS) (p : List Char) : FS :=
  match fsRead fs p with
  | none => fs
  | some content =>
    match update_provider_file content dryRun with
    | (_, _, some newContent) => fsWrite fs p newContent
    | _ => fs

/-- `LIB_DIR / "core" / "utils" / "org_aware_helpers.dart"`. -/
def helperPath : List Char := "lib/core/utils/org_aware_helpers.dart".data

/-- Command-line flags of phase 2. -/
structure Flags2 where
  dryRun : Bool
  apply : Bool
  skipBackup : Bool

/-- `main` of migrate_to_saas_phase2.py (lines 380-447): flag check, `lib/`
check (exit 1), backup (apply mode only), then the four steps.  Note
`dry_run := args.dry_run` (line 400): the backup runs whenever `--apply`
is given, the steps write whenever `--dry-run` is absent. -/
def phase2Main (f : Flags2) (ts : List Char) (fs : FS) : Nat × FS :=
  if !(f.dryRun || f.apply) then (1, fs)
  else if !(libExists fs) then (1, fs)
  else
    let dryRun := f.dryRun
    let fs1 := if f.apply && !f.skipBackup then create_backup2 fs ts else fs
    let fs2 := update_organization_provider fs1 dryRun
    let fs3 := (update_settings_models fs2 dryRun).1
    let provs := get_provider_files fs3
    let fs4 := provs.foldl (providerStep2 dryRun) fs3
    let fs5 := if dryRun then fs4 else fsWrite fs4 helperPath helperContent
    (0, fs5)

/-! ## wire_org_context.py -/

def wireTodoComment : List Char :=
  "\n// TODO: Multi-tenant - Watch currentOrganizationProvider:\n//   final orgId = await ref.watch(currentOrganizationProvider.future);\n//   Add .eq('organization_id', orgId) to queries\n".data

def wireImportLine : List Char :=
  "import 'organization_provider.dart';\n".data
/-- `SKIP_METHODS` (lines 39-51). -/
def skipMethods : List (List Char) :=
  [ "_parseDateTime".data, "_nowUtcIso".data, "_handleDbError".data,
    "_menuItemInsertPayload".data, "_sanitizeMenuItemUpdates".data,
    "_fetchSettingsRow".data, "_upsertSettingsRow".data, "_menuItemFromJson".data,
    "_buildNameSearchPatterns".data, "parseDateTime".data,
    "getMenuItems".data, "createMenuItem".data, "getOrders".data,
    "placeOrder".data, "verifyOrderPayment".data, "getOrder".data,
    "updateOrderStatus".data, "assignOrderToKitchen".data,
    "assignOrderToDelivery".data, "cancelOrder".data, "deleteOrder".data,
    "updateOrder".data, "markOrderAsNotPrinted".data, "toggleOrderPagato".data,
    "updateMenuItem".data, "deleteMenuItem".data ]

/-- `methods_to_update` (lines 67-87): `(method name, table)` pairs. -/
def methodsToUpdate : List (List Char × List Char) :=
  [ ("searchCashierCustomers".data, "cashier_customers".data),
    ("findMatchingCustomer".data, "cashier_customers".data),
    ("createCashierCustomer".data, "cashier_customers".data),
    ("updateCashierCustomer".data, "cashier_customers".data),
    ("incrementCustomerOrders".data, "cashier_customers".data),
    ("getCashierCustomerById".data, "cashier_customers".data),
    ("countItemsInSlot".data, "ordini".data),
    ("countOrdersInSlot".data, "ordini".data),
    ("getItemCountsBySlotRange".data, "ordini".data),
    ("getPizzeria".data, "business_rules".data),
    ("getPizzeriaSettings".data, "business_rules".data),
    ("updateBusinessRules".data, "business_rules".data),
    ("saveOrderManagementSettings".data, "order_management".data),
    ("saveOrderManagementSettingsRaw".data, "order_management".data),
    ("saveDeliveryConfigurationSettings".data, "delivery_configuration".data),
    ("saveDisplayBrandingSettings".data, "display_branding".data),
    ("saveKitchenManagementSettings".data, "kitchen_management".data),
    ("saveBusinessRulesSettings".data, "business_rules".data),
    ("getOrderManagementSettingsRaw".data, "order_management".data) ]

/-- One attempt, at the front of `cs`, of the signature pattern of wire
`update_database_service` (line 96): `Future<[^>]+>\s+name\s*\([^)]*`.
Returns group 1 (the whole matched span).  `[^>]+` cannot cross a `>`, so
its only span runs to the first `>`; the other quantifiers are
deterministic as before. -/
def parseMethodSigAt (name cs : List Char) : Option (List Char) :=
  if "Future<".data.isPrefixOf cs then
    let cs1 := cs.drop 7
    let g := (cs1.takeWhile (fun c => c ≠ '>')).length
    if g = 0 then none else
    match cs1.drop g with
    | '>' :: cs2 =>
      let w := (cs2.takeWhile isPySpace).length
      if w = 0 then none else
      let cs3 := cs2.drop w
      if name.isPrefixOf cs3 then
        let cs4 := cs3.drop name.length
        let w2 := (cs4.takeWhile isPySpace).length
        match cs4.drop w2 with
        | '(' :: cs5 =>
          let b := (cs5.takeWhile (fun c => c ≠ ')')).length
          some (cs.take (7 + g + 1 + w + name.length + w2 + 1 + b))
        | _ => none
      else none
    | _ => none
  else none

/-- Leftmost `re.search` of the signature pattern. -/
def findMethodSigAux (name : List Char) : List Char → Option (List Char)
  | [] => none
  | c :: cs =>
    match parseMethodSigAt name (c :: cs) with
    | some sig => some sig
    | none => findMethodSigAux name cs

def findMethodSig (name content : List Char) : Option (List Char) :=
  match parseMethodSigAt name content with
  | some sig => some sig
  | none =>
    match content with
    | [] => none
    | _ :: cs => findMethodSigAux name cs

/-- The loop body of wire `update_database_service` (lines 89-109): a method
counts when it is not skipped, its name occurs in the content, the
signature pattern matches, and the matched signature does not already
mention `organizationId`. -/
def methodNeedsUpdate (content name : List Char) : Bool :=
  if skipMethods.any (fun m => m = name) then false
  else if subOccurs name content then
    match findMethodSig name content with
    | some sig => !(subOccurs "organizationId".data sig)
    | none => false
  else false

/-- `changes` of wire `update_database_service`. -/
def countMethodsNeeding (content : List Char) : Nat :=
  (methodsToUpdate.filter (fun pr => methodNeedsUpdate content pr.1)).length

/-- wire `update_database_service` (lines 53-112): reads
`database_service.dart` with no existence check — a missing file raises an
uncaught `FileNotFoundError` (modelled as `.error`).  The function only
counts and prints; it never writes, in dry-run or apply mode alike, so the
returned file system is the input one. -/
def update_database_service_wire (fs : FS) (dryRun : Bool) :
    Except Unit (Nat × FS) :=
  match fsRead fs dbServicePath with
  | none => .error ()
  | some content =>
    let _ := dryRun
    .ok (countMethodsNeeding content, fs)

/-- One attempt, at the front of `cs`, of the import pattern of
`update_provider_org_context` (line 144): `import '[^']+';`.
Returns the matched length. -/
def parseImportStmtAt (cs : List Char) : Option Nat :=
  if "import '".data.isPrefixOf cs then
    let cs1 := cs.drop 8
    let k := (cs1.takeWhile (fun c => c ≠ '\'')).length
    if k = 0 then none else
    match cs1.drop k with
    | '\'' :: ';' :: _ => some (8 + k + 2)
    | _ => none
  else none

/-- Leftmost `re.search` of the import pattern: `(position, length)`. -/
def findImportStmtAux (i : Nat) : List Char → Option (Nat × Nat)
  | [] => none
  | c :: cs =>
    match parseImportStmtAt (c :: cs) with
    | some len => some (i, len)
    | none => findImportStmtAux (i + 1) cs

def findImportStmt (content : List Char) : Option (Nat × Nat) :=
  findImportStmtAux 0 content

/-- The `re.sub(..., count=1)` with its guarding lambda (lines 143-148):
the first regex match is replaced by itself plus a newline and the import
line, but only when the first occurrence of the matched text coincides
with the first occurrence of `"import '"`. -/
def wireAddImport (content : List Char) : List Char :=
  match findImportStmt content with
  | none => content
  | some (pos, len) =>
    let matched := (content.drop pos).take len
    if firstIndexOfSub content matched = firstIndexOfSub content "import '".data then
      content.take (pos + len) ++ '\n' :: wireImportLine ++ content.drop (pos + len)
    else content

/-- Lines 157-162: add `wireTodoComment` after the line containing the last
occurrence of `"import "` (Python `rfind`); when that line has no newline,
`content.find('\n', import_end)` is `-1` and the comment lands at
position 0 (`content[:-1+1]` is empty). -/
def wireAddTodo (content : List Char) : List Char :=
  match lastIndexOfSub content "import ".data with
  | none => content
  | some ie =>
    match findCharFrom content '\n' ie with
    | some le => content.take (le + 1) ++ wireTodoComment ++ content.drop (le + 1)
    | none => wireTodoComment ++ content

/-- `update_provider_org_context` (lines 115-166), pure part: returns
`(reported updated?, text written)`; in dry-run mode nothing is ever
written. -/
def update_provider_org_context (content : List Char) (dryRun : Bool) :
    Bool × Option (List Char) :=
  if !(subOccurs "Supabase.instance.client".data content) then (false, none)
  else if subOccurs "currentOrganizationProvider.future".data content then (false, none)
  else if dryRun then (true, none)
  else
    let hasImport := subOccurs "organization_provider.dart".data content
    let c1 := if !hasImport then wireAddImport content else content
    let c2 := if !(subOccurs "TODO: Multi-tenant".data c1) then wireAddTodo c1 else c1
    (true, some c2)

/-- `key_providers` (lines 176-195), resolved against `providers_dir`. -/
def keyProviders : List (List Char) :=
  [ "lib/providers/categories_provider.dart".data,
    "lib/providers/ingredients_provider.dart".data,
    "lib/providers/sizes_master_provider.dart".data,
    "lib/providers/sizes_provider.dart".data,
    "lib/providers/product_sizes_provider.dart".data,
    "lib/providers/product_extra_ingredients_provider.dart".data,
    "lib/providers/product_included_ingredients_provider.dart".data,
    "lib/providers/recommended_ingredients_provider.dart".data,
    "lib/providers/filtered_menu_provider.dart".data,
    "lib/providers/manager_orders_provider.dart".data,
    "lib/providers/dashboard_analytics_provider.dart".data,
    "lib/providers/delivery_zones_provider.dart".data,
    "lib/providers/promotional_banners_provider.dart".data,
    "lib/providers/inventory_ui_providers.dart".data,
    "lib/providers/product_analytics_provider.dart".data,
    "lib/providers/product_monthly_sales_provider.dart".data,
    "lib/providers/top_products_per_category_provider.dart".data,
    "lib/providers/order_price_calculator_provider.dart".data ]

/-- One iteration of `update_providers` (lines 197-201): missing provider
files are skipped silently (no warning). -/
def wireProviderStep (dryRun : Bool) (fs : FS) (p : List Char) : FS :=
  match fsRead fs p with
  | none => fs
  | some content =>
    match update_provider_org_context content dryRun with
    | (_, some newContent) => fsWrite fs p newContent
    | _ => fs

/-- Command-line flags of wire_org_context.py. -/
structure FlagsW where
  dryRun : Bool
  apply : Bool

/-- `main` of wire_org_context.py (lines 206-244): flag check, then
`update_database_service` — whose uncaught `FileNotFoundError` on a missing
`database_service.dart` aborts the process (CPython exits with status 1 on
an unhandled exception) before any provider is processed — then the
provider loop.  There is no `lib/` existence check and, unlike the other
two scripts, no backup of any kind. -/
def wireMain (f : FlagsW) (fs : FS) : Nat × FS :=
  if !(f.dryRun || f.apply) then (1, fs)
  else
    match update_database_service_wire fs f.dryRun with
    | .error _ => (1, fs)
    | .ok (_, fs1) =>
      let fs2 := keyProviders.foldl (wireProviderStep f.dryRun) fs1
      (0, fs2)

/-! ## Concrete instances used by witnesses and counterexamples -/

/-- The scenario input of spec §8. -/
def demoFactoryText : List Char := "factory Foo(\x7bString? a,\x7d) = _Foo;".data

/-- Result of applying the factory rule to `demoFactoryText`
(group 1 is `factory Foo(\x7b`, 13 characters). -/
def demoFactoryPatched : List Char :=
  demoFactoryText.take 13 ++ orgInsertion ++ demoFactoryText.drop 13

/-- The nested-brace hazard input of spec §8/§9. -/
def nestedBraceText : List Char := "factory Foo(\x7bMap x = const \x7b\x7d,\x7d) = _Foo;".data

/-- A text that already contains the insertion marker while the structural
matcher would also match. -/
def preconditionPriorityText : List Char :=
  "factory Foo(\x7bString? organizationId,\x7d) = _Foo;".data

/-- A provider text with a Supabase call but no import line: phase 2's
`update_provider_file` reports it applied without changing a character. -/
def noImportProviderText : List Char := "final c = Supabase.instance.client;".data

/-- A text with non-ASCII characters in front of the factory constructor
(group 1 ends at index 27). -/
def accentedModelText : List Char :=
  "// menù àèì\nfactory Pizza(\x7bString? nome,\x7d) = _Pizza;".data

def accentedModelPatched : List Char :=
  accentedModelText.take 27 ++ orgInsertion ++ accentedModelText.drop 27

/-- Settings file content for the phase-2 backup counterexample. -/
def demoSettingsText : List Char :=
  "factory BusinessRulesSettings(\x7bint? maxOrders,\x7d) = _BusinessRulesSettings;".data

def demoSettingsPath : List Char :=
  "lib/core/models/settings/business_rules_settings.dart".data

/-- A provider file whose presence makes `lib/providers/` exist; it has no
Supabase call, so phase 2 leaves it alone. -/
def demoDummyProviderPath : List Char := "lib/providers/dummy_provider.dart".data

/-- Initial file system of the phase-2 apply-mode counterexample run. -/
def phase2DemoFs : FS :=
  [ (demoSettingsPath, demoSettingsText),
    (demoDummyProviderPath, "class Dummy".data) ]

/-- The phase-2 apply run on `phase2DemoFs` (no `--skip-backup`). -/
def phase2DemoRun : Nat × FS :=
  phase2Main ⟨false, true, false⟩ "20250101_000000".data phase2DemoFs

/-- File system for the wire_org_context counterexample:
`database_service.dart` is missing while an eligible provider exists. -/
def wireDemoProviderPath : List Char := "lib/providers/categories_provider.dart".data

def wireDemoProviderText : List Char :=
  "import 'a.dart';\nfinal c = Supabase.instance.client;".data

def wireDemoFs : FS := [(wireDemoProviderPath, wireDemoProviderText)]

/-- File system for the script-1 backup witness: one model file, no other
`lib/` content. -/
def script1DemoModelText : List Char :=
  "factory MenuItemModel(\x7bint? id,\x7d) = _MenuItemModel;".data

def script1DemoFs : FS :=
  [("lib/core/models/menu_item_model.dart".data, script1DemoModelText)]

/-- The script-1 apply run on `script1DemoFs`. -/
def script1DemoRun : Nat × FS :=
  script1Main ⟨false, true, false, false⟩ "20250101_000000".data script1DemoFs

/-- Database-service content for the wire analysis witness. -/
def wireDbDemoText : List Char :=
  "Future<X> getPizzeria() async;\nFuture<Y> updateOrder() async;".data

def wireDbDemoFs : FS := [(dbServicePath, wireDbDemoText)]

/-! ## Helper lemmas -/

theorem fsRead_fsWrite (fs : FS) (p c q : List Char) :
    fsRead (fsWrite fs p c) q = if q = p then some c else fsRead fs q := by
  induction fs with
  | nil =>
    by_cases h : q = p
    · simp [fsWrite, fsRead, h]
    · have hpq : ¬ p = q := fun hh => h hh.symm
      simp [fsWrite, fsRead, h, hpq]
  | cons e rest ih =>
    simp only [fsWrite]
    by_cases he : e.1 = p
    · rw [if_pos he]
      by_cases hq : q = p
      · simp [fsRead, hq]
      · have hpq : ¬ p = q := fun hh => hq hh.symm
        simp [fsRead, hq, hpq, he]
    · rw [if_neg he]
      by_cases hq : e.1 = q
      · have hqp : ¬ q = p := fun hh => he (hq.trans hh)
        simp [fsRead, hq, hqp]
      · simp [fsRead, hq, ih]

theorem fsRead_mem {fs : FS} {p c : List Char} (h : fsRead fs p = some c) :
    (p, c) ∈ fs := by
  induction fs with
  | nil => simp [fsRead] at h
  | cons e rest ih =>
    simp only [fsRead] at h
    by_cases he : e.1 = p
    · rw [if_pos he] at h
      obtain ⟨e1, e2⟩ := e
      simp only at he h
      injection h with h2
      subst he; subst h2
      exact List.mem_cons_self _ _
    · rw [if_neg he] at h
      exact List.mem_cons_of_mem _ (ih h)

theorem subOccurs_intro {pat s : List Char} (i : Nat) (hi : i ≤ s.length)
    (hp : pat.isPrefixOf (s.drop i) = true) : subOccurs pat s = true := by
  unfold subOccurs
  rw [List.any_eq_true]
  exact ⟨i, List.mem_range.2 (by omega), hp⟩

theorem subOccurs_elim {pat s : List Char} (h : subOccurs pat s = true) :
    ∃ i, i ≤ s.length ∧ pat.isPrefixOf (s.drop i) = true := by
  unfold subOccurs at h
  rw [List.any_eq_true] at h
  obtain ⟨i, hi, hp⟩ := h
  exact ⟨i, by have := List.mem_range.1 hi; omega, hp⟩

theorem subOccurs_append_mid {pat mid : List Char} (a b : List Char)
    (h : subOccurs pat mid = true) : subOccurs pat (a ++ mid ++ b) = true := by
  obtain ⟨i, hi, hp⟩ := subOccurs_elim h
  apply subOccurs_intro (a.length + i)
  · simp [List.length_append]
    omega
  · have h1 : (a ++ mid ++ b).drop (a.length + i) = (mid ++ b).drop i := by
      rw [List.append_assoc, List.drop_append]
    have h2 : (mid ++ b).drop i = mid.drop i ++ b := by
      rw [List.drop_append_of_le_length hi]
    rw [h1, h2, List.isPrefixOf_iff_prefix]
    rw [List.isPrefixOf_iff_prefix] at hp
    exact hp.trans (List.prefix_append _ _)

theorem findFactoryMatchAux_spec :
    ∀ (cs : List Char) (i j g1 t : Nat),
      findFactoryMatchAux i cs = some (j, g1, t) →
      i ≤ j ∧ matchAt (cs.drop (j - i)) = some (g1, t) ∧
        ∀ k, k < j - i → matchAt (cs.drop k) = none := by
  intro cs
  induction cs with
  | nil => intro i j g1 t h; simp [findFactoryMatchAux] at h
  | cons c cs ih =>
    intro i j g1 t h
    unfold findFactoryMatchAux at h
    cases hm : matchAt (c :: cs) with
    | some pr =>
      rw [hm] at h
      obtain ⟨g1', t'⟩ := pr
      simp only [Option.some.injEq, Prod.mk.injEq] at h
      obtain ⟨rfl, rfl, rfl⟩ := h
      refine ⟨Nat.le_refl _, ?_, ?_⟩
      · simpa using hm
      · intro k hk; omega
    | none =>
      rw [hm] at h
      obtain ⟨h1, h2, h3⟩ := ih (i + 1) j g1 t h
      refine ⟨by omega, ?_, ?_⟩
      · have hidx : j - i = (j - (i + 1)) + 1 := by omega
        rw [hidx, List.drop_succ_cons]
        exact h2
      · intro k hk
        cases k with
        | zero => simpa using hm
        | succ k' =>
          rw [List.drop_succ_cons]
          exact h3 k' (by omega)

theorem applied_shape {content newText : List Char}
    (h : applyFactoryRule content = .applied newText) :
    hasOrgPrecondition content = false ∧
    ∃ start g1 total, findFactoryMatch content = some (start, g1, total) ∧
      newText = content.take (start + g1) ++ orgInsertion ++ content.drop (start + g1) := by
  unfold applyFactoryRule at h
  by_cases hp : hasOrgPrecondition content
  · simp [hp] at h
  · refine ⟨by simpa using hp, ?_⟩
    rw [if_neg hp] at h
    cases hf : findFactoryMatch content with
    | none => rw [hf] at h; simp at h
    | some tri =>
      obtain ⟨s, g1, t⟩ := tri
      rw [hf] at h
      simp only [PatchResult.applied.injEq] at h
      exact ⟨s, g1, t, rfl, h.symm⟩

/-! ## Claim theorems -/

/-- C2: for every file text and the factory rule, applying the rule to the
text produced by a previous successful application returns
`skippedAlreadyPresent` — the inserted text itself contains the
precondition substring `organizationId`, so a re-run is a no-op and never
a double insertion. -/
theorem c2_idempotence (content newText : List Char)
    (h : applyFactoryRule content = .applied newText) :
    applyFactoryRule newText = .skippedAlreadyPresent := by
  obtain ⟨-, s, g1, t, -, rfl⟩ := applied_shape h
  have hins : subOccurs "organizationId".data orgInsertion = true := by decide
  have hpre : hasOrgPrecondition
      (content.take (s + g1) ++ orgInsertion ++ content.drop (s + g1)) = true := by
    unfold hasOrgPrecondition
    rw [Bool.or_eq_true]
    exact Or.inl (subOccurs_append_mid _ _ hins)
  unfold applyFactoryRule
  rw [hpre]
  simp

theorem c2_idempotence_witness :
    applyFactoryRule demoFactoryPatched = .skippedAlreadyPresent :=
  c2_idempotence demoFactoryText demoFactoryPatched (by decide)

/-- C3 counterexample: on the nested-brace input
`"factory Foo({Map x = const {},}) = _Foo;"` the claim says the matcher
captures the full balanced body and the insertion lands inside the
parameter list (an `applied` outcome).  In the code the body pattern
`[^}]*?` cannot cross the inner `}` of the default value, so the regex
finds no match at all and the operation returns `skippedNoMatch` — a
constructor distinct from every `applied _`, so no insertion happens. -/
theorem c3_nested_braces_counterexample :
    applyFactoryRule nestedBraceText = .skippedNoMatch := by decide

/-- C3 amended: the structured-block matcher does NOT tolerate nested
brackets inside a default value; on the spec's test input it finds no
match anywhere (the search returns `none`), and the update operation
reports `skippedNoMatch` — the captured region is never truncated only
because no region is captured at all, and no insertion occurs. -/
theorem c3_nested_braces_amended :
    findFactoryMatch nestedBraceText = none ∧
    applyFactoryRule nestedBraceText = .skippedNoMatch := by
  constructor
  · decide
  · decide

/-- C4 counterexample: phase 2's `update_provider_file`, on a file that
uses `Supabase.instance.client` but has no import line, reports the
applied outcome (`true`) with `changes = 0` while the text it writes in
non-dry-run mode is identical to the original — `status == applied` does
NOT imply `newText != originalText` for every update function. -/
theorem c4_applied_invariant_counterexample :
    update_provider_file noImportProviderText false =
      (true, 0, some noImportProviderText) := by decide

/-- C4 amended: for the factory-insertion update operations
(`add_organization_id_to_model` and `update_settings_models`, both embodied
by `applyFactoryRule`) an `applied` outcome does imply that the new text
differs from the original and that the precondition did not hold in the
original; phase 2's `update_provider_file` violates the new-text half, as
the counterexample shows. -/
theorem c4_applied_invariant_amended (content newText : List Char)
    (h : applyFactoryRule content = .applied newText) :
    newText ≠ content ∧ hasOrgPrecondition content = false := by
  obtain ⟨hpre, s, g1, t, -, rfl⟩ := applied_shape h
  refine ⟨?_, hpre⟩
  intro heq
  have hlen := congrArg List.length heq
  simp only [List.length_append, List.length_take, List.length_drop] at hlen
  have hins : orgInsertion.length = 62 := by decide
  omega

theorem c4_applied_invariant_witness :
    demoFactoryPatched ≠ demoFactoryText ∧
    hasOrgPrecondition demoFactoryText = false :=
  c4_applied_invariant_amended demoFactoryText demoFactoryPatched (by decide)

/-- C6: whenever the precondition marker occurs anywhere in the input, the
update operation returns `skippedAlreadyPresent`; the result does not
depend on the structural matcher at all (the precondition branch is taken
first), so this holds even when the matcher would also have matched. -/
theorem c6_precondition_priority (content : List Char)
    (h : hasOrgPrecondition content = true) :
    applyFactoryRule content = .skippedAlreadyPresent := by
  simp [applyFactoryRule, h]

/-- Witness: a text where the structural matcher also matches
(`findFactoryMatch` succeeds), yet the precondition wins. -/
theorem c6_precondition_priority_witness :
    (findFactoryMatch preconditionPriorityText).isSome = true ∧
    applyFactoryRule preconditionPriorityText = .skippedAlreadyPresent :=
  ⟨by decide, c6_precondition_priority preconditionPriorityText (by decide)⟩

/-- C8: an `applied` outcome is exactly one splice of the insertion text at
the boundary determined by the leftmost match of the matcher: `newText`
is the original text's first `start + g1` characters, then the insertion,
then the rest of the original text unchanged — every original character
(non-ASCII included; texts are sequences of Unicode code points here) is
preserved on either side of the single insertion point, and no earlier
position admits a match. -/
theorem c8_single_leftmost_insertion (content newText : List Char)
    (h : applyFactoryRule content = .applied newText) :
    ∃ start g1 total,
      findFactoryMatch content = some (start, g1, total) ∧
      matchAt (content.drop start) = some (g1, total) ∧
      (∀ k, k < start → matchAt (content.drop k) = none) ∧
      newText = content.take (start + g1) ++ orgInsertion ++ content.drop (start + g1) := by
  obtain ⟨-, s, g1, t, hf, rfl⟩ := applied_shape h
  obtain ⟨-, hm, hnone⟩ := findFactoryMatchAux_spec content 0 s g1 t hf
  refine ⟨s, g1, t, hf, ?_, ?_, rfl⟩
  · simpa using hm
  · intro k hk
    have := hnone k (by omega)
    simpa using this

/-- Witness at a text containing accented characters. -/
theorem c8_single_leftmost_insertion_witness :
    ∃ start g1 total,
      findFactoryMatch accentedModelText = some (start, g1, total) ∧
      matchAt (accentedModelText.drop start) = some (g1, total) ∧
      (∀ k, k < start → matchAt (accentedModelText.drop k) = none) ∧
      accentedModelPatched =
        accentedModelText.take (start + g1) ++ orgInsertion ++
          accentedModelText.drop (start + g1) :=
  c8_single_leftmost_insertion accentedModelText accentedModelPatched (by decide)

/-! ## Dry-run frame lemmas -/

theorem add_model_dry (fs : FS) (p : List Char) (r : Report) :
    (add_organization_id_to_model fs p r true).1 = fs := by
  unfold add_organization_id_to_model
  cases h : fsRead fs p with
  | none => rfl
  | some content =>
    simp only
    cases hr : applyFactoryRule content <;> simp [hr]

theorem processModels_dry (l : List (List Char)) (fs : FS) (r : Report) :
    (processModels true l fs r).1 = fs := by
  induction l generalizing fs r with
  | nil => rfl
  | cons p rest ih =>
    unfold processModels
    rcases hop : add_organization_id_to_model fs p r true with ⟨fs1, r1, b1⟩
    have h := add_model_dry fs p r
    rw [hop] at h
    simp only at h
    simp only [hop]
    rw [h]
    exact ih fs r1

theorem update_db1_dry (fs : FS) (r : Report) :
    (update_database_service1 fs r true).1 = fs := by
  unfold update_database_service1
  cases h : fsRead fs dbServicePath with
  | none => rfl
  | some content => simp

theorem create_provider_dry (fs : FS) (r : Report) :
    (create_organization_provider fs r true).1 = fs := by
  unfold create_organization_provider
  by_cases h : (fsRead fs orgProviderPath).isSome <;> simp [h]

theorem settings_go_dry (l : List (List Char)) (fs : FS) (n : Nat)
    (w : List (List Char)) :
    (update_settings_models_go true l fs n w).1 = fs := by
  induction l generalizing fs n w with
  | nil => rfl
  | cons p rest ih =>
    unfold update_settings_models_go
    cases h : fsRead fs p with
    | none => exact ih fs n w
    | some content =>
      simp only
      cases hr : applyFactoryRule content
      · simp only [if_pos rfl]
        exact ih fs (n + 1) w
      · exact ih fs n w
      · exact ih fs n _
      · exact ih fs n w

theorem update_provider_file_dry (content : List Char) :
    (update_provider_file content true).2.2 = none := by
  simp only [update_provider_file]
  split
  · rfl
  · split
    · rfl
    · split
      · split
        · rfl
        · rfl
      · split
        · rfl
        · rfl

theorem providerStep2_dry (fs : FS) (p : List Char) :
    providerStep2 true fs p = fs := by
  unfold providerStep2
  cases h : fsRead fs p with
  | none => rfl
  | some content =>
    simp only
    rcases hu : update_provider_file content true with ⟨b, nc, o⟩
    have hd := update_provider_file_dry content
    rw [hu] at hd
    simp only at hd
    subst hd
    rfl

theorem foldl_providerStep2_dry (l : List (List Char)) (fs : FS) :
    l.foldl (providerStep2 true) fs = fs := by
  induction l generalizing fs with
  | nil => rfl
  | cons p rest ih => simp [List.foldl_cons, providerStep2_dry, ih]

theorem update_provider_org_context_dry (content : List Char) :
    (update_provider_org_context content true).2 = none := by
  simp only [update_provider_org_context]
  split
  · rfl
  · split
    · rfl
    · rfl

theorem wireProviderStep_dry (fs : FS) (p : List Char) :
    wireProviderStep true fs p = fs := by
  unfold wireProviderStep
  cases h : fsRead fs p with
  | none => rfl
  | some content =>
    simp only
    rcases hu : update_provider_org_context content true with ⟨b, o⟩
    have hd := update_provider_org_context_dry content
    rw [hu] at hd
    simp only at hd
    subst hd
    rfl

theorem foldl_wireProviderStep_dry (l : List (List Char)) (fs : FS) :
    l.foldl (wireProviderStep true) fs = fs := by
  induction l generalizing fs with
  | nil => rfl
  | cons p rest ih => simp [List.foldl_cons, wireProviderStep_dry, ih]

theorem update_settings_models_dry (fs : FS) :
    (update_settings_models fs true).1 = fs :=
  settings_go_dry settingsTargets fs 0 []

theorem wire_db_ok_fs {fs fs' : FS} {d : Bool} {n : Nat}
    (h : update_database_service_wire fs d = .ok (n, fs')) : fs' = fs := by
  unfold update_database_service_wire at h
  cases hr : fsRead fs dbServicePath with
  | none => rw [hr] at h; cases h
  | some content =>
    rw [hr] at h
    simp only [Except.ok.injEq, Prod.mk.injEq] at h
    exact h.2.symm

/-- C5: in dry-run (preview/report) mode no operation of any of the three
scripts writes, creates or modifies a file: each script's `main`, run in a
non-apply preview mode, returns the file system unchanged, and the three
cited per-file operations write nothing when their `dry_run` flag is set. -/
theorem c5_dry_run_no_op :
    (∀ (f : Flags1) (ts : List Char) (fs : FS),
        f.apply = false → (f.dryRun || f.report) = true →
        (script1Main f ts fs).2 = fs) ∧
    (∀ (f : Flags2) (ts : List Char) (fs : FS),
        f.apply = false → f.dryRun = true →
        (phase2Main f ts fs).2 = fs) ∧
    (∀ (f : FlagsW) (fs : FS),
        f.dryRun = true → (wireMain f fs).2 = fs) ∧
    (∀ (fs : FS) (p : List Char) (r : Report),
        (add_organization_id_to_model fs p r true).1 = fs) ∧
    (∀ fs : FS, (update_settings_models fs true).1 = fs) ∧
    (∀ content : List Char, (update_provider_org_context content true).2 = none) := by
  refine ⟨?_, ?_, ?_, add_model_dry, update_settings_models_dry,
    update_provider_org_context_dry⟩
  · intro f ts fs ha hd
    have hor : (f.dryRun || (f.apply || f.report)) = true := by
      rw [ha]; simpa using hd
    have hb : (f.apply && !f.skipBackup) = false := by rw [ha]; rfl
    by_cases hl : libExists fs
    · simp only [script1Main, hor, hl, Bool.not_true, Bool.false_eq_true, if_false, hb, hd,
        processModels_dry, update_db1_dry, create_provider_dry]
      split <;> rfl
    · simp only [script1Main, hor, Bool.not_true, Bool.false_eq_true, if_false,
        Bool.not_eq_true'] at *
      simp [hl]
  · intro f ts fs ha hd
    have hor : (f.dryRun || f.apply) = true := by rw [hd]; rfl
    have hb : (f.apply && !f.skipBackup) = false := by rw [ha]; rfl
    by_cases hl : libExists fs
    · simp only [phase2Main, hor, hl, Bool.not_true, Bool.false_eq_true, if_false, hb, hd,
        update_organization_provider, if_true, update_settings_models_dry,
        foldl_providerStep2_dry]
      simp
    · simp only [phase2Main, hor, Bool.not_true, Bool.false_eq_true, if_false,
        Bool.not_eq_true'] at *
      simp [hl]
  · intro f fs hd
    have hor : (f.dryRun || f.apply) = true := by rw [hd]; rfl
    unfold wireMain
    rw [hor]
    simp only [Bool.not_true, Bool.false_eq_true, if_false]
    cases hu : update_database_service_wire fs f.dryRun with
    | error e => rfl
    | ok pr =>
      obtain ⟨n, fs1⟩ := pr
      have := wire_db_ok_fs hu
      subst this
      simp only [hd, foldl_wireProviderStep_dry]

/-- Witness: concrete dry runs of all three scripts leave the concrete
file systems untouched. -/
theorem c5_dry_run_no_op_witness :
    (script1Main ⟨true, false, false, false⟩ "TS".data script1DemoFs).2 = script1DemoFs ∧
    (phase2Main ⟨true, false, false⟩ "TS".data phase2DemoFs).2 = phase2DemoFs ∧
    (wireMain ⟨true, false⟩ wireDemoFs).2 = wireDemoFs :=
  ⟨c5_dry_run_no_op.1 ⟨true, false, false, false⟩ "TS".data script1DemoFs rfl rfl,
   c5_dry_run_no_op.2.1 ⟨true, false, false⟩ "TS".data phase2DemoFs rfl rfl,
   c5_dry_run_no_op.2.2.1 ⟨true, false⟩ wireDemoFs rfl⟩

theorem lib_of_fsRead {fs : FS} {p c : List Char}
    (h : fsRead fs p = some c) (hp : "lib/".data.isPrefixOf p = true) :
    libExists fs = true := by
  unfold libExists
  rw [List.any_eq_true]
  exact ⟨(p, c), fsRead_mem h, hp⟩

/-- C9: each script exits 0 on normal completion (runs where every file is
skipped included) and exits 1 — with the file system untouched, hence
before any backup or write — when `lib/` is absent; for
wire_org_context.py the absence of `lib/` means the unguarded read of
`database_service.dart` raises, and CPython terminates with status 1. -/
theorem c9_exit_codes :
    (∀ (f : Flags1) (ts : List Char) (fs : FS),
        (f.dryRun || f.apply || f.report) = true → libExists fs = false →
        script1Main f ts fs = (1, fs)) ∧
    (∀ (f : Flags1) (ts : List Char) (fs : FS),
        (f.dryRun || f.apply || f.report) = true → libExists fs = true →
        (script1Main f ts fs).1 = 0) ∧
    (∀ (f : Flags2) (ts : List Char) (fs : FS),
        (f.dryRun || f.apply) = true → libExists fs = false →
        phase2Main f ts fs = (1, fs)) ∧
    (∀ (f : Flags2) (ts : List Char) (fs : FS),
        (f.dryRun || f.apply) = true → libExists fs = true →
        (phase2Main f ts fs).1 = 0) ∧
    (∀ (f : FlagsW) (fs : FS),
        (f.dryRun || f.apply) = true → libExists fs = false →
        wireMain f fs = (1, fs)) ∧
    (∀ (f : FlagsW) (fs : FS) (c : List Char),
        (f.dryRun || f.apply) = true → fsRead fs dbServicePath = some c →
        (wireMain f fs).1 = 0) := by
  refine ⟨?_, ?_, ?_, ?_, ?_, ?_⟩
  · intro f ts fs hor hl
    simp [script1Main, hor, hl]
  · intro f ts fs hor hl
    simp [script1Main, hor, hl]
  · intro f ts fs hor hl
    simp [phase2Main, hor, hl]
  · intro f ts fs hor hl
    simp [phase2Main, hor, hl]
  · intro f fs hor hl
    have hdb : fsRead fs dbServicePath = none := by
      cases h : fsRead fs dbServicePath with
      | none => rfl
      | some c =>
        have := lib_of_fsRead h (by decide)
        rw [this] at hl
        cases hl
    unfold wireMain
    rw [hor]
    simp only [Bool.not_true, Bool.false_eq_true, if_false]
    unfold update_database_service_wire
    rw [hdb]
  · intro f fs c hor hc
    unfold wireMain
    rw [hor]
    simp only [Bool.not_true, Bool.false_eq_true, if_false]
    unfold update_database_service_wire
    rw [hc]

/-- Witness: concrete exit codes — 1 on an empty file system (no `lib/`),
0 on normal dry and analysis runs. -/
theorem c9_exit_codes_witness :
    script1Main ⟨true, false, false, false⟩ "TS".data [] = (1, []) ∧
    (script1Main ⟨true, false, false, false⟩ "TS".data script1DemoFs).1 = 0 ∧
    phase2Main ⟨true, false, false⟩ "TS".data [] = (1, []) ∧
    (phase2Main ⟨true, false, false⟩ "TS".data phase2DemoFs).1 = 0 ∧
    wireMain ⟨true, false⟩ [] = (1, []) ∧
    (wireMain ⟨true, false⟩ wireDbDemoFs).1 = 0 :=
  ⟨c9_exit_codes.1 ⟨true, false, false, false⟩ "TS".data [] rfl (by decide),
   c9_exit_codes.2.1 ⟨true, false, false, false⟩ "TS".data script1DemoFs rfl (by decide),
   c9_exit_codes.2.2.1 ⟨true, false, false⟩ "TS".data [] rfl (by decide),
   c9_exit_codes.2.2.2.1 ⟨true, false, false⟩ "TS".data phase2DemoFs rfl (by decide),
   c9_exit_codes.2.2.2.2.1 ⟨true, false⟩ [] rfl (by decide),
   c9_exit_codes.2.2.2.2.2 ⟨true, false⟩ wireDbDemoFs wireDbDemoText rfl (by decide)⟩

/-- C10: the phase-3 DatabaseService analysis step never modifies the file
system in dry-run or apply mode: when the read succeeds the returned file
system is the input one (and when it fails nothing was touched either —
the run aborts). -/
theorem c10_wire_db_analysis_no_write :
    ∀ (fs : FS) (dryRun : Bool),
      (update_database_service_wire fs dryRun).map (fun r => r.2) =
        (update_database_service_wire fs dryRun).map (fun _ => fs) := by
  intro fs d
  unfold update_database_service_wire
  cases fsRead fs dbServicePath <;> rfl

theorem settings_go_missing (d : Bool) (l : List (List Char)) (fs : FS)
    (n : Nat) (w : List (List Char)) (h : ∀ p ∈ l, fsRead fs p = none) :
    update_settings_models_go d l fs n w = (fs, n, w) := by
  induction l with
  | nil => rfl
  | cons p rest ih =>
    unfold update_settings_models_go
    rw [h p (List.mem_cons_self _ _)]
    exact ih (fun x hx => h x (List.mem_cons_of_mem _ hx))

/-- C7 counterexample: the claim says a targeted file that does not exist is
recorded as a warning and the run continues, with remaining files still
receiving their outcomes.  In wire_org_context.py a missing
`database_service.dart` aborts the whole run (uncaught error, exit 1, file
system untouched) even though an existing provider file in the same run
qualifies for patching (`update_provider_org_context` reports it
applied) — that provider never receives its outcome. -/
theorem c7_missing_file_counterexample :
    fsRead wireDemoFs dbServicePath = none ∧
    (update_provider_org_context wireDemoProviderText false).1 = true ∧
    wireMain ⟨false, true⟩ wireDemoFs = (1, wireDemoFs) :=
  ⟨by decide, by decide, by decide⟩

/-- C7 amended: missing-file handling differs per script.  In
migrate_to_saas.py a missing model file adds a `File not found` warning to
the report, leaves the file system untouched for that path, returns
`false`, and the per-file loop continues (it is a total fold).  In
migrate_to_saas_phase2.py missing settings files are skipped silently —
no warning, run continues.  In wire_org_context.py a missing
`database_service.dart` aborts the batch with exit code 1 before any
provider receives an outcome. -/
theorem c7_missing_file_amended :
    (∀ (fs : FS) (p : List Char) (r : Report) (d : Bool),
        fsRead fs p = none →
        add_organization_id_to_model fs p r d =
          (fs, addWarning r ("File not found: ".data ++ lastComponent p), false)) ∧
    (∀ (fs : FS) (d : Bool),
        (∀ p ∈ settingsTargets, fsRead fs p = none) →
        update_settings_models fs d = (fs, 0, [])) ∧
    (∀ (f : FlagsW) (fs : FS),
        (f.dryRun || f.apply) = true → fsRead fs dbServicePath = none →
        wireMain f fs = (1, fs)) := by
  refine ⟨?_, ?_, ?_⟩
  · intro fs p r d h
    unfold add_organization_id_to_model
    rw [h]
  · intro fs d h
    unfold update_settings_models
    exact settings_go_missing d settingsTargets fs 0 [] h
  · intro f fs hor hdb
    unfold wireMain
    rw [hor]
    simp only [Bool.not_true, Bool.false_eq_true, if_false]
    unfold update_database_service_wire
    rw [hdb]

theorem c7_missing_file_witness :
    add_organization_id_to_model [] "lib/core/models/menu_item_model.dart".data
        emptyReport true =
      ([], addWarning emptyReport
        ("File not found: ".data ++ "menu_item_model.dart".data), false) ∧
    update_settings_models [] false = ([], 0, []) ∧
    wireMain ⟨true, false⟩ [] = (1, []) := by
  refine ⟨?_, ?_, ?_⟩
  · have h := c7_missing_file_amended.1 []
      "lib/core/models/menu_item_model.dart".data emptyReport true rfl
    rw [h]
    decide
  · exact c7_missing_file_amended.2.1 [] false (by decide)
  · exact c7_missing_file_amended.2.2 ⟨true, false⟩ [] rfl rfl

/-- C1 counterexample: a concrete apply-mode phase-2 run (no
`--skip-backup`).  The run modifies
`lib/core/models/settings/business_rules_settings.dart` (its post-run
content differs from its pre-run content), yet no file under the run's
snapshot root `migration_backup_phase2/` holds a byte-identical copy of
that pre-run content — phase 2's backup list covers only
`database_service.dart`, `organization_provider.dart` and the provider
glob, never the settings models it rewrites.  So backup-before-write does
not hold over all three scripts' apply paths (wire_org_context.py even
creates no snapshot at all). -/
theorem c1_backup_before_write_counterexample :
    fsRead phase2DemoFs demoSettingsPath = some demoSettingsText ∧
    (fsRead phase2DemoRun.2 demoSettingsPath).isSome = true ∧
    fsRead phase2DemoRun.2 demoSettingsPath ≠ some demoSettingsText ∧
    phase2DemoRun.2.filter
      (fun e => "migration_backup_phase2/".data.isPrefixOf e.1 &&
        decide (e.2 = demoSettingsText)) = [] :=
  ⟨by decide, by decide, by decide, by decide⟩

/-! ## Backup-before-write lemmas for migrate_to_saas.py -/

theorem copyStep_read_ne (tgt : List Char → List Char) (fs : FS)
    (p q : List Char) (h : tgt p ≠ q) :
    fsRead (copyStep tgt fs p) q = fsRead fs q := by
  unfold copyStep
  cases hr : fsRead fs p with
  | none => rfl
  | some c =>
    rw [fsRead_fsWrite]
    rw [if_neg (fun hh => h hh.symm)]

theorem copyFold_read_ne (tgt : List Char → List Char) (ps : List (List Char))
    (fs : FS) (q : List Char) (h : ∀ p ∈ ps, tgt p ≠ q) :
    fsRead (ps.foldl (copyStep tgt) fs) q = fsRead fs q := by
  induction ps generalizing fs with
  | nil => rfl
  | cons b rest ih =>
    rw [List.foldl_cons, ih _ (fun x hx => h x (List.mem_cons_of_mem _ hx))]
    exact copyStep_read_ne tgt fs b q (h b (List.mem_cons_self _ _))

theorem copyFold_maint (tgt : List Char → List Char) :
    ∀ (ps : List (List Char)) (acc : FS) (p c0 : List Char),
      fsRead acc (tgt p) = some c0 → fsRead acc p = some c0 →
      (∀ b ∈ ps, tgt b ≠ p) → (∀ b ∈ ps, tgt b = tgt p → b = p) →
      fsRead (ps.foldl (copyStep tgt) acc) (tgt p) = some c0 := by
  intro ps
  induction ps with
  | nil => intro acc p c0 h1 _ _ _; exact h1
  | cons b rest ih =>
    intro acc p c0 h1 h2 hsrc hinj
    rw [List.foldl_cons]
    have hb : tgt b ≠ p := hsrc b (List.mem_cons_self _ _)
    have h2' : fsRead (copyStep tgt acc b) p = some c0 := by
      rw [copyStep_read_ne tgt acc b p hb]; exact h2
    have h1' : fsRead (copyStep tgt acc b) (tgt p) = some c0 := by
      by_cases htb : tgt b = tgt p
      · have hbp : b = p := hinj b (List.mem_cons_self _ _) htb
        subst hbp
        unfold copyStep
        rw [h2, fsRead_fsWrite, if_pos rfl]
      · rw [copyStep_read_ne tgt acc b (tgt p) htb]; exact h1
    exact ih _ p c0 h1' h2' (fun x hx => hsrc x (List.mem_cons_of_mem _ hx))
      (fun x hx => hinj x (List.mem_cons_of_mem _ hx))

theorem copyFold_covers (tgt : List Char → List Char) :
    ∀ (ps : List (List Char)) (fs : FS) (p c0 : List Char),
      p ∈ ps → fsRead fs p = some c0 →
      (∀ b ∈ ps, tgt b ≠ p) → (∀ b ∈ ps, tgt b = tgt p → b = p) →
      fsRead (ps.foldl (copyStep tgt) fs) (tgt p) = some c0 := by
  intro ps
  induction ps with
  | nil => intro fs p c0 hmem; cases hmem
  | cons b rest ih =>
    intro fs p c0 hmem hread hsrc hinj
    rw [List.foldl_cons]
    by_cases hbp : b = p
    · subst hbp
      have h1 : fsRead (copyStep tgt fs b) (tgt b) = some c0 := by
        unfold copyStep
        rw [hread, fsRead_fsWrite, if_pos rfl]
      have h2 : fsRead (copyStep tgt fs b) b = some c0 := by
        rw [copyStep_read_ne tgt fs b b (hsrc b (List.mem_cons_self _ _))]
        exact hread
      exact copyFold_maint tgt rest _ b c0 h1 h2
        (fun x hx => hsrc x (List.mem_cons_of_mem _ hx))
        (fun x hx => hinj x (List.mem_cons_of_mem _ hx))
    · have hmem' : p ∈ rest := by
        cases hmem with
        | head => exact absurd rfl hbp
        | tail _ hm => exact hm
      have hread' : fsRead (copyStep tgt fs b) p = some c0 := by
        rw [copyStep_read_ne tgt fs b p (hsrc b (List.mem_cons_self _ _))]
        exact hread
      exact ih _ p c0 hmem' hread'
        (fun x hx => hsrc x (List.mem_cons_of_mem _ hx))
        (fun x hx => hinj x (List.mem_cons_of_mem _ hx))

theorem modelGlob_decomp {p : List Char} (h : isModelGlob p = true) :
    ∃ r, p = "lib/core/models/".data ++ r ∧
      r.all (fun c => c ≠ '/') = true := by
  unfold isModelGlob at h
  simp only [Bool.and_eq_true] at h
  obtain ⟨⟨⟨⟨h1, h2⟩, h3⟩, h4⟩, h5⟩ := h
  rw [List.isPrefixOf_iff_prefix] at h1
  obtain ⟨r, rfl⟩ := h1
  refine ⟨r, rfl, ?_⟩
  have hl : ("lib/core/models/".data).length = 16 := by decide
  rw [← hl, List.drop_left] at h2
  exact h2

theorem lastComponent_models {r : List Char}
    (hr : r.all (fun c => c ≠ '/') = true) :
    lastComponent ("lib/core/models/".data ++ r) = r := by
  unfold lastComponent
  rw [List.reverse_append]
  have hall : ∀ a ∈ r.reverse, (fun c : Char => decide (c ≠ '/')) a = true := by
    intro a ha
    rw [List.mem_reverse] at ha
    exact List.all_eq_true.1 hr a ha
  rw [List.takeWhile_append_of_pos hall]
  have h0 : ("lib/core/models/".data.reverse.takeWhile
      (fun c : Char => decide (c ≠ '/'))) = [] := by decide
  rw [h0, List.append_nil, List.reverse_reverse]

theorem snap_head {ts q : List Char}
    (hq : (snapBase1 ts).isPrefixOf q = true) : q.head? = some 'm' := by
  rw [List.isPrefixOf_iff_prefix] at hq
  obtain ⟨t, rfl⟩ := hq
  rfl

theorem head_m_ne_l {q b : List Char} (hq : q.head? = some 'm')
    (hb : b.head? = some 'l') : q ≠ b := by
  intro h
  subst h
  rw [hq] at hb
  exact absurd (Option.some.inj hb) (by decide)

theorem snapTarget_isPrefix (ts x : List Char) :
    (snapBase1 ts).isPrefixOf (snapBase1 ts ++ x) = true := by
  rw [List.isPrefixOf_iff_prefix]
  exact List.prefix_append _ _

theorem snapTarget_isPrefix2 (ts m x : List Char) :
    (snapBase1 ts).isPrefixOf (snapBase1 ts ++ m ++ x) = true := by
  rw [List.append_assoc]
  exact snapTarget_isPrefix ts (m ++ x)

theorem modelGlob_head {p : List Char} (h : isModelGlob p = true) :
    p.head? = some 'l' := by
  obtain ⟨r, rfl, -⟩ := modelGlob_decomp h
  rfl

theorem tgtModel_inj {ts b p : List Char} (hb : isModelGlob b = true)
    (hp : isModelGlob p = true)
    (h : snapBase1 ts ++ "models/".data ++ lastComponent b =
         snapBase1 ts ++ "models/".data ++ lastComponent p) : b = p := by
  obtain ⟨rb, rfl, hrb⟩ := modelGlob_decomp hb
  obtain ⟨rp, rfl, hrp⟩ := modelGlob_decomp hp
  rw [lastComponent_models hrb, lastComponent_models hrp] at h
  have h1 := List.append_cancel_left h
  rw [h1]

theorem mem_modelFiles {fs : FS} {p c : List Char} (hm : (p, c) ∈ fs)
    (hg : isModelGlob p = true) :
    p ∈ (fs.filter (fun e => isModelGlob e.1)).map (fun e => e.1) := by
  rw [List.mem_map]
  exact ⟨(p, c), List.mem_filter.2 ⟨hm, hg⟩, rfl⟩

theorem mem_modelFiles_glob {fs : FS} {b : List Char}
    (h : b ∈ (fs.filter (fun e => isModelGlob e.1)).map (fun e => e.1)) :
    isModelGlob b = true := by
  rw [List.mem_map] at h
  obtain ⟨e, he, rfl⟩ := h
  exact (List.mem_filter.1 he).2

theorem copyStep_read_self (tgt : List Char → List Char) (fs : FS)
    (p c0 : List Char) (h : fsRead fs p = some c0) :
    fsRead (copyStep tgt fs p) (tgt p) = some c0 := by
  unfold copyStep
  rw [h, fsRead_fsWrite, if_pos rfl]

theorem create_backup_read_notsnap (fs : FS) (ts q : List Char)
    (h : ¬ (snapBase1 ts).isPrefixOf q = true) :
    fsRead (create_backup fs ts) q = fsRead fs q := by
  unfold create_backup
  rw [copyStep_read_ne]
  · apply copyFold_read_ne
    intro p hp heq
    exact h (heq ▸ snapTarget_isPrefix2 ts "models/".data (lastComponent p))
  · intro heq
    exact h (heq ▸ snapTarget_isPrefix ts "services/database_service.dart".data)

theorem create_backup_covers_model (fs : FS) (ts p c0 : List Char)
    (hread : fsRead fs p = some c0) (hglob : isModelGlob p = true) :
    fsRead (create_backup fs ts)
      (snapBase1 ts ++ "models/".data ++ lastComponent p) = some c0 := by
  unfold create_backup
  rw [copyStep_read_ne]
  · exact copyFold_covers _ _ fs p c0
      (mem_modelFiles (fsRead_mem hread) hglob) hread
      (fun b _ => head_m_ne_l
        (snap_head (snapTarget_isPrefix2 ts "models/".data (lastComponent b)))
        (modelGlob_head hglob))
      (fun b hb heq => @tgtModel_inj ts b p (mem_modelFiles_glob hb) hglob heq)
  · intro heq
    rw [List.append_assoc] at heq
    have h1 := List.append_cancel_left heq
    have h2 : (some 's' : Option Char) = some 'm' := congrArg List.head? h1
    exact absurd (Option.some.inj h2) (by decide)

theorem create_backup_covers_db (fs : FS) (ts c0 : List Char)
    (hread : fsRead fs dbServicePath = some c0) :
    fsRead (create_backup fs ts)
      (snapBase1 ts ++ "services/database_service.dart".data) = some c0 := by
  unfold create_backup
  have h1 : fsRead
      (((fs.filter (fun e => isModelGlob e.1)).map (fun e => e.1)).foldl
        (copyStep (fun p => snapBase1 ts ++ "models/".data ++ lastComponent p)) fs)
      dbServicePath = some c0 := by
    rw [copyFold_read_ne]
    · exact hread
    · intro p hp
      exact head_m_ne_l
        (snap_head (snapTarget_isPrefix2 ts "models/".data (lastComponent p)))
        (by decide)
  exact copyStep_read_self _ _ _ _ h1

theorem add_model_read_ne (fs : FS) (p : List Char) (r : Report) (d : Bool)
    (q : List Char) (h : q ≠ p) :
    fsRead (add_organization_id_to_model fs p r d).1 q = fsRead fs q := by
  unfold add_organization_id_to_model
  cases hr : fsRead fs p with
  | none => rfl
  | some content =>
    simp only
    cases ha : applyFactoryRule content with
    | applied newContent =>
      cases d with
      | true => rfl
      | false =>
        simp only [Bool.false_eq_true, if_false]
        rw [fsRead_fsWrite, if_neg h]
    | skippedAlreadyPresent => rfl
    | skippedNoMatch => rfl
    | skippedNotFound => rfl

theorem processModels_read_ne (d : Bool) :
    ∀ (l : List (List Char)) (fs : FS) (r : Report) (q : List Char),
      (∀ p ∈ l, q ≠ p) →
      fsRead (processModels d l fs r).1 q = fsRead fs q := by
  intro l
  induction l with
  | nil => intro fs r q _; rfl
  | cons p rest ih =>
    intro fs r q h
    unfold processModels
    rcases hop : add_organization_id_to_model fs p r d with ⟨fs1, r1, b1⟩
    have hfr := add_model_read_ne fs p r d q (h p (List.mem_cons_self _ _))
    rw [hop] at hfr
    simp only at hfr
    simp only [hop]
    rw [ih fs1 r1 q (fun x hx => h x (List.mem_cons_of_mem _ hx)), hfr]

theorem update_db1_read_ne (fs : FS) (r : Report) (d : Bool) (q : List Char)
    (h : q ≠ dbServicePath) :
    fsRead (update_database_service1 fs r d).1 q = fsRead fs q := by
  unfold update_database_service1
  cases hr : fsRead fs dbServicePath with
  | none => rfl
  | some content =>
    simp only
    split
    · split
      · split
        · simp only
          rw [fsRead_fsWrite, if_neg h]
        · rfl
      · rfl
    · rfl

theorem create_provider_read_ne (fs : FS) (r : Report) (d : Bool)
    (q : List Char) (h : q ≠ orgProviderPath) :
    fsRead (create_organization_provider fs r d).1 q = fsRead fs q := by
  unfold create_organization_provider
  split
  · rfl
  · split
    · rfl
    · simp only
      rw [fsRead_fsWrite, if_neg h]

theorem create_provider_exists (fs : FS) (r : Report) (d : Bool)
    (hs : (fsRead fs orgProviderPath).isSome = true) :
    (create_organization_provider fs r d).1 = fs := by
  unfold create_organization_provider
  simp [hs]

theorem script1_phases_read_ne (d : Bool) (fs : FS) (q : List Char)
    (h1 : ∀ x ∈ modelTargets1, q ≠ x) (h2 : q ≠ dbServicePath)
    (h3 : q ≠ orgProviderPath) :
    fsRead (create_organization_provider
      (update_database_service1 (processModels d modelTargets1 fs emptyReport).1
        (processModels d modelTargets1 fs emptyReport).2 d).1
      (update_database_service1 (processModels d modelTargets1 fs emptyReport).1
        (processModels d modelTargets1 fs emptyReport).2 d).2.1 d).1 q =
    fsRead fs q := by
  rw [create_provider_read_ne _ _ _ _ h3, update_db1_read_ne _ _ _ _ h2,
    processModels_read_ne d modelTargets1 fs emptyReport q h1]

/-- C1 amended: in apply mode without `--skip-backup`, migrate_to_saas.py
does satisfy backup-before-write — the snapshot step is the first action
of the run (by construction of `script1Main`), and for every pre-existing
file whose content the run changes, a byte-identical copy of its pre-run
content sits in the run's snapshot directory when the run ends.  The
hypothesis that nothing already lives under the fresh timestamped
snapshot directory reflects the wall-clock naming of `create_backup`.
The property does NOT extend to the other two scripts: phase 2 modifies
settings models it never backs up (see the counterexample) and
wire_org_context.py creates no snapshot at all. -/
theorem c1_backup_before_write_amended (f : Flags1) (ts : List Char) (fs : FS)
    (hap : f.apply = true) (hsb : f.skipBackup = false)
    (hfresh : fs.all (fun e => !((snapBase1 ts).isPrefixOf e.1)) = true)
    (p c0 : List Char) (hpre : fsRead fs p = some c0)
    (hchg : fsRead (script1Main f ts fs).2 p ≠ some c0) :
    ∃ q, (snapBase1 ts).isPrefixOf q = true ∧
      fsRead (script1Main f ts fs).2 q = some c0 := by
  have hor : (f.dryRun || f.apply || f.report) = true := by
    rw [hap]; simp
  by_cases hl : libExists fs
  case neg =>
    exfalso
    apply hchg
    have hl2 : libExists fs = false := by
      cases hlb : libExists fs
      · rfl
      · exact absurd hlb hl
    simp only [script1Main, hor, Bool.not_true, Bool.false_eq_true, if_false, hl2,
      Bool.not_false, if_true]
    exact hpre
  case pos =>
  have hback : (f.apply && !f.skipBackup) = true := by rw [hap, hsb]; rfl
  have hrun : (script1Main f ts fs).2 =
      (create_organization_provider
        (update_database_service1
          (processModels (f.dryRun || f.report) modelTargets1
            (create_backup fs ts) emptyReport).1
          (processModels (f.dryRun || f.report) modelTargets1
            (create_backup fs ts) emptyReport).2
          (f.dryRun || f.report)).1
        (update_database_service1
          (processModels (f.dryRun || f.report) modelTargets1
            (create_backup fs ts) emptyReport).1
          (processModels (f.dryRun || f.report) modelTargets1
            (create_backup fs ts) emptyReport).2
          (f.dryRun || f.report)).2.1
        (f.dryRun || f.report)).1 := by
    simp only [script1Main, hor, hl, hback, Bool.not_true, Bool.false_eq_true,
      if_false, if_true]
  rw [hrun] at hchg ⊢
  by_cases hsnap : (snapBase1 ts).isPrefixOf p = true
  · exfalso
    have hmem := fsRead_mem hpre
    have := List.all_eq_true.1 hfresh (p, c0) hmem
    simp only at this
    rw [hsnap] at this
    cases this
  · have hb1 : fsRead (create_backup fs ts) p = some c0 := by
      rw [create_backup_read_notsnap fs ts p hsnap]; exact hpre
    have hTargetsHead : ∀ x ∈ modelTargets1, x.head? = some 'l' := by decide
    by_cases hm : p ∈ modelTargets1
    · -- a model file: the backup glob covered it
      have hglob : isModelGlob p = true := by
        have hall : ∀ x ∈ modelTargets1, isModelGlob x = true := by decide
        exact hall p hm
      have hc := create_backup_covers_model fs ts p c0 hpre hglob
      have ht := snapTarget_isPrefix2 ts "models/".data (lastComponent p)
      have hh := snap_head ht
      refine ⟨snapBase1 ts ++ "models/".data ++ lastComponent p, ht, ?_⟩
      rw [script1_phases_read_ne _ _ _
        (fun x hx => head_m_ne_l hh (hTargetsHead x hx))
        (head_m_ne_l hh (by decide)) (head_m_ne_l hh (by decide))]
      exact hc
    · by_cases hdb : p = dbServicePath
      · subst hdb
        have hc := create_backup_covers_db fs ts c0 hpre
        have ht := snapTarget_isPrefix ts "services/database_service.dart".data
        have hh := snap_head ht
        refine ⟨snapBase1 ts ++ "services/database_service.dart".data, ht, ?_⟩
        rw [script1_phases_read_ne _ _ _
          (fun x hx => head_m_ne_l hh (hTargetsHead x hx))
          (head_m_ne_l hh (by decide)) (head_m_ne_l hh (by decide))]
        exact hc
      · by_cases hop : p = orgProviderPath
        · -- an existing organization_provider.dart is never touched
          exfalso
          apply hchg
          subst hop
          have h2 : fsRead (processModels (f.dryRun || f.report) modelTargets1
              (create_backup fs ts) emptyReport).1 orgProviderPath = some c0 := by
            rw [processModels_read_ne _ _ _ _ _ (by decide)]
            exact hb1
          have h3 : fsRead (update_database_service1
              (processModels (f.dryRun || f.report) modelTargets1
                (create_backup fs ts) emptyReport).1
              (processModels (f.dryRun || f.report) modelTargets1
                (create_backup fs ts) emptyReport).2
              (f.dryRun || f.report)).1 orgProviderPath = some c0 := by
            rw [update_db1_read_ne _ _ _ _ (by decide)]
            exact h2
          rw [create_provider_exists _ _ _ (by rw [h3]; rfl)]
          exact h3
        · -- not a write target at all: unchanged, contradiction
          exfalso
          apply hchg
          rw [script1_phases_read_ne _ _ _
            (fun x hx heq => hm (by rw [heq]; exact hx)) hdb hop]
          exact hb1

/-- Witness: a concrete apply run of migrate_to_saas.py that patches
`menu_item_model.dart`; the snapshot holds its pre-run content. -/
theorem c1_backup_before_write_witness :
    ∃ q, (snapBase1 "20250101_000000".data).isPrefixOf q = true ∧
      fsRead (script1Main ⟨false, true, false, false⟩ "20250101_000000".data
        script1DemoFs).2 q = some script1DemoModelText :=
  c1_backup_before_write_amended ⟨false, true, false, false⟩
    "20250101_000000".data script1DemoFs rfl rfl (by decide)
    "lib/core/models/menu_item_model.dart".data script1DemoModelText
    (by decide) (by decide)
